import Mathlib

/-!
Shallow embedding of the order/user/file CRUD backend
(api-cloudflare-restaurantes): Hono controllers, services, Prisma-backed
repositories and middlewares, together with theorems checking the
natural-language specification against this embedding.

Modelling conventions:
- The D1/Prisma relational store is modelled as an explicit record of rows
  plus the AUTOINCREMENT counter; each repository method is a pure function
  on that record, mirroring the Prisma call it wraps.
- JS `number` prices are modelled as rationals (exact for the magnitudes the
  validators admit); JS `string` as `String`; `undefined`/optional fields as
  `Option`.
- External primitives that the repository delegates (bcrypt hashing and
  comparison, JWT signing) are passed in as function parameters or modelled
  at the claims level, as the spec declares them out of scope.
- Thrown `Error(msg)` is modelled as `Except.error msg`; mutating service
  operations return the error alongside the (unchanged) store so that
  "persists nothing on failure" is expressible.
- Timestamp columns (`criado_em`/`atualizado_em`) are filled by the store
  (`CURRENT_TIMESTAMP`); they are carried as opaque strings and never drive
  any decision in the embedded code.
-/

/-- JS truthiness fallback `v || d` for an optional string: both `undefined`
and the empty string are falsy (mirrors `data.role || 'user'` in
`UserRepository.create`). -/
def jsOr (v : Option String) (d : String) : String :=
  match v with
  | none => d
  | some s => if s = "" then d else s

/-- Character-list prefix test (helper for the case-insensitive substring
match used by the Prisma `contains ... mode insensitive` filter). -/
def strStartsWith : List Char → List Char → Bool
  | [], _ => true
  | _ :: _, [] => false
  | c :: cs, d :: ds => c == d && strStartsWith cs ds

/-- Character-list substring test. -/
def strContainsAux (needle : List Char) : List Char → Bool
  | [] => strStartsWith needle []
  | d :: ds => strStartsWith needle (d :: ds) || strContainsAux needle ds

/-- Case-insensitive substring test: models the Prisma filter
`cliente: { contains: c, mode: 'insensitive' }` in `PedidoRepository.findMany`. -/
def containsInsensitive (hay needle : String) : Bool :=
  strContainsAux needle.toLower.toList hay.toLower.toList

/-- JS `Math.ceil(a / b)` on the non-negative integers the pagination code
feeds it (the float division is exact at these magnitudes). Modelled by the
natural ceiling division `(a + b - 1) / b`; the agreement with the exact
rational ceiling `⌈a / b⌉₊` for positive `b` is proved below
(`mathCeilDiv_eq_natCeil`). -/
def mathCeilDiv (a b : Nat) : Nat := (a + b - 1) / b

/-- Row of the `pedidos` table (migration `001_init.sql`): id, cliente,
tamanho, complemento, preco, status; timestamps omitted as they never drive
control flow in the embedded code. -/
structure Pedido where
  id : Nat
  cliente : String
  tamanho : String
  complemento : Option String
  preco : ℚ
  status : String
  deriving DecidableEq

/-- The `pedidos` table plus its AUTOINCREMENT counter. -/
structure PedidoStore where
  rows : List Pedido
  nextId : Nat
  deriving DecidableEq

/-- `CreatePedidoInput` as produced by `createPedidoSchema` (zod): cliente,
tamanho, optional complemento, preco. -/
structure CreatePedidoInput where
  cliente : String
  tamanho : String
  complemento : Option String
  preco : ℚ
  deriving DecidableEq

/-- `UpdatePedidoInput` as produced by `updatePedidoSchema`: every field
optional. -/
structure UpdatePedidoInput where
  cliente : Option String
  tamanho : Option String
  complemento : Option String
  preco : Option ℚ
  status : Option String
  deriving DecidableEq

/-- `ListPedidosQuery` as produced by `listPedidosQuerySchema`: page and
limit (defaulted upstream), optional status and cliente filters. -/
structure ListPedidosQuery where
  page : Nat
  limit : Nat
  status : Option String
  cliente : Option String
  deriving DecidableEq

/-- `PedidoRepository.findById`: `findUnique({ where: { id } })`. -/
def pedidoRepoFindById (st : PedidoStore) (id : Nat) : Option Pedido :=
  st.rows.find? (fun r => r.id == id)

/-- `PedidoRepository.create`: inserts cliente, tamanho, complemento, preco;
the store assigns the id and the `status` column default `'pendente'`
(migration `001_init.sql`). -/
def pedidoRepoCreate (st : PedidoStore) (data : CreatePedidoInput) : Pedido × PedidoStore :=
  let p : Pedido :=
    { id := st.nextId, cliente := data.cliente, tamanho := data.tamanho,
      complemento := data.complemento, preco := data.preco, status := "pendente" }
  (p, { rows := st.rows ++ [p], nextId := st.nextId + 1 })

/-- Prisma `update({ where: { id }, data })` semantics on one row: fields
present in the patch overwrite, absent (`undefined`) fields are ignored. -/
def applyPedidoPatch (p : Pedido) (data : UpdatePedidoInput) : Pedido :=
  { p with
    cliente := data.cliente.getD p.cliente,
    tamanho := data.tamanho.getD p.tamanho,
    complemento := match data.complemento with | some c => some c | none => p.complemento,
    preco := data.preco.getD p.preco,
    status := data.status.getD p.status }

/-- `PedidoRepository.update`: returns the updated row, or `none` when the
row is absent (the repository catches the Prisma not-found throw and returns
`null`). -/
def pedidoRepoUpdate (st : PedidoStore) (id : Nat) (data : UpdatePedidoInput) :
    Option Pedido × PedidoStore :=
  match pedidoRepoFindById st id with
  | none => (none, st)
  | some p =>
    (some (applyPedidoPatch p data),
     { st with rows := st.rows.map (fun r => if r.id == id then applyPedidoPatch r data else r) })

/-- `PedidoRepository.delete`: true and the row removed when present, false
(and the store untouched) when the Prisma delete throws not-found. -/
def pedidoRepoDelete (st : PedidoStore) (id : Nat) : Bool × PedidoStore :=
  if st.rows.any (fun r => r.id == id) then
    (true, { st with rows := st.rows.filter (fun r => !(r.id == id)) })
  else (false, st)

/-- Status/cliente where-clause of `PedidoRepository.findMany`. -/
def matchesPedidoFilters (q : ListPedidosQuery) (p : Pedido) : Bool :=
  (match q.status with | some s => p.status == s | none => true) &&
  (match q.cliente with | some c => containsInsensitive p.cliente c | none => true)

/-- `PedidoRepository.findMany`: filtered rows with `skip = (page-1)*limit`
and `take = limit`, plus the filtered count. The `orderBy criadoEm desc`
clause only permutes rows by a store-assigned timestamp; the model keeps
store order. -/
def pedidoRepoFindMany (st : PedidoStore) (q : ListPedidosQuery) : List Pedido × Nat :=
  let filtered := st.rows.filter (matchesPedidoFilters q)
  ((filtered.drop ((q.page - 1) * q.limit)).take q.limit, filtered.length)

/-- Pagination metadata block returned by the list services. -/
structure Pagination where
  page : Nat
  limit : Nat
  total : Nat
  totalPages : Nat
  hasNext : Bool
  hasPrev : Bool
  deriving DecidableEq

/-- `PedidoService.createPedido`: rejects `preco <= 0`, else delegates to the
repository create. -/
def createPedido (st : PedidoStore) (data : CreatePedidoInput) :
    Except String Pedido × PedidoStore :=
  if data.preco ≤ 0 then (Except.error "Preço deve ser maior que zero", st)
  else
    let (p, st') := pedidoRepoCreate st data
    (Except.ok p, st')

/-- `PedidoService.getPedidoById`: not-found error when absent. -/
def getPedidoById (st : PedidoStore) (id : Nat) : Except String Pedido :=
  match pedidoRepoFindById st id with
  | none => Except.error "Pedido não encontrado"
  | some p => Except.ok p

/-- `PedidoService.listPedidos`: repository findMany plus pagination metadata
with `totalPages = Math.ceil(total / limit)`, `hasNext = page < totalPages`,
`hasPrev = page > 1`. -/
def listPedidos (st : PedidoStore) (q : ListPedidosQuery) : List Pedido × Pagination :=
  let (pedidos, total) := pedidoRepoFindMany st q
  let totalPages := mathCeilDiv total q.limit
  (pedidos,
   { page := q.page, limit := q.limit, total := total, totalPages := totalPages,
     hasNext := decide (q.page < totalPages), hasPrev := decide (q.page > 1) })

/-- The guard `data.preco !== undefined && data.preco <= 0` in
`PedidoService.updatePedido`. -/
def precoNonPositive : Option ℚ → Bool
  | some pr => decide (pr ≤ 0)
  | none => false

/-- `PedidoService.updatePedido`: existence check via `getPedidoById`, then
the price guard, then the repository update. -/
def updatePedido (st : PedidoStore) (id : Nat) (data : UpdatePedidoInput) :
    Except String Pedido × PedidoStore :=
  match getPedidoById st id with
  | Except.error e => (Except.error e, st)
  | Except.ok _ =>
    if precoNonPositive data.preco then (Except.error "Preço deve ser maior que zero", st)
    else
      match pedidoRepoUpdate st id data with
      | (none, st') => (Except.error "Erro ao atualizar pedido", st')
      | (some p, st') => (Except.ok p, st')

/-- `PedidoService.deletePedido`: existence check, the `status === 'entregue'`
domain guard, then the repository delete. -/
def deletePedido (st : PedidoStore) (id : Nat) : Except String Unit × PedidoStore :=
  match getPedidoById st id with
  | Except.error e => (Except.error e, st)
  | Except.ok pedido =>
    if pedido.status == "entregue" then
      (Except.error "Não é possível deletar pedidos já entregues", st)
    else
      match pedidoRepoDelete st id with
      | (false, st') => (Except.error "Erro ao deletar pedido", st')
      | (true, st') => (Except.ok (), st')

/-- The five statuses accepted by `PedidoService.updateStatus`. -/
def validStatuses : List String :=
  ["pendente", "preparando", "pronto", "entregue", "cancelado"]

/-- `PedidoService.updateStatus`: membership check against `validStatuses`,
then delegation to `updatePedido` with a status-only patch. -/
def updateStatus (st : PedidoStore) (id : Nat) (status : String) :
    Except String Pedido × PedidoStore :=
  if !(validStatuses.contains status) then (Except.error "Status inválido", st)
  else
    updatePedido st id
      { cliente := none, tamanho := none, complemento := none, preco := none,
        status := some status }

/-- Outcome of `PedidoController.getById`: the order payload, the 403
denial, or the error envelope from a thrown service error. -/
inductive PedidoGetByIdResult where
  | success (p : Pedido)
  | denied (msg : String)
  | failure (msg : String)
  deriving DecidableEq

/-- `PedidoController.getById`: fetches the order, then applies the access
check `userRole !== 'ADMIN' && pedido.id !== userId` → 403 "Acesso negado". -/
def pedidoControllerGetById (st : PedidoStore) (userRole : String) (userId : Nat)
    (id : Nat) : PedidoGetByIdResult :=
  match getPedidoById st id with
  | Except.error e => PedidoGetByIdResult.failure e
  | Except.ok pedido =>
    if userRole != "ADMIN" && pedido.id != userId then
      PedidoGetByIdResult.denied "Acesso negado"
    else PedidoGetByIdResult.success pedido

/-- Row of the `usuarios` table (migration `003_usuarios.sql`): id, email,
senha (bcrypt hash), nome, role, ativo, plus opaque timestamp columns. -/
structure Usuario where
  id : Nat
  email : String
  senha : String
  nome : String
  role : String
  ativo : Bool
  criadoEm : String
  atualizadoEm : String
  deriving DecidableEq

/-- The `usuarios` table plus its AUTOINCREMENT counter. -/
structure UserStore where
  rows : List Usuario
  nextId : Nat
  deriving DecidableEq

/-- `RegisterUserInput` as produced by `registerUserSchema`: nome, email,
senha, and a role restricted to `'user' | 'admin'` when present (the zod
schema defaults an absent role to `'user'`; the repository separately
applies `data.role || 'user'`, so the model keeps the field optional). -/
structure RegisterUserInput where
  nome : String
  email : String
  senha : String
  role : Option String
  deriving DecidableEq

/-- `LoginUserInput` as produced by `loginUserSchema`. -/
structure LoginUserInput where
  email : String
  senha : String
  deriving DecidableEq

/-- `UpdateUserInput` as produced by `updateUserSchema`: every field
optional. -/
structure UpdateUserInput where
  nome : Option String
  email : Option String
  senha : Option String
  role : Option String
  ativo : Option Bool
  deriving DecidableEq

/-- JSON value carried by one field of a response object. -/
inductive JVal where
  | jnum (n : Nat)
  | jstr (s : String)
  | jbool (b : Bool)
  deriving DecidableEq

/-- A `Usuario` row as the JS object the repository hands to the service:
an ordered key/value record, `senha` included. -/
def usuarioToObj (u : Usuario) : List (String × JVal) :=
  [("id", JVal.jnum u.id), ("email", JVal.jstr u.email), ("senha", JVal.jstr u.senha),
   ("nome", JVal.jstr u.nome), ("role", JVal.jstr u.role), ("ativo", JVal.jbool u.ativo),
   ("criadoEm", JVal.jstr u.criadoEm), ("atualizadoEm", JVal.jstr u.atualizadoEm)]

/-- The destructuring `const { senha, ...userWithoutPassword } = user` used
by every user-service return path: drops exactly the `senha` key. -/
def removeSenhaField (o : List (String × JVal)) : List (String × JVal) :=
  o.filter (fun kv => kv.1 != "senha")

/-- The explicit `select` of `UserRepository.findMany`: id, nome, email,
role, ativo and the timestamps; `senha` is not selected. -/
def usuarioSelectPublic (u : Usuario) : List (String × JVal) :=
  [("id", JVal.jnum u.id), ("nome", JVal.jstr u.nome), ("email", JVal.jstr u.email),
   ("role", JVal.jstr u.role), ("ativo", JVal.jbool u.ativo),
   ("criadoEm", JVal.jstr u.criadoEm), ("atualizadoEm", JVal.jstr u.atualizadoEm)]

/-- Claims carried by a JWT issued by this system (`JwtPayload` in
`jwtUtils.ts`). -/
structure JwtPayload where
  userId : Nat
  email : String
  role : String
  deriving DecidableEq

/-- A signed token. Signing and expiry are delegated to the external `jwt`
library; at the claims level a valid signed token is determined by the
payload it certifies, which is what `verifyToken` recovers. -/
structure SignedToken where
  payload : JwtPayload
  deriving DecidableEq

/-- `generateToken`: signs the payload (signature modelled away, claims
kept). -/
def generateToken (p : JwtPayload) : SignedToken := ⟨p⟩

/-- `UserRepository.findByEmail`: `findUnique({ where: { email } })`. -/
def userRepoFindByEmail (st : UserStore) (email : String) : Option Usuario :=
  st.rows.find? (fun u => u.email == email)

/-- `UserRepository.findById`: `findUnique({ where: { id } })`. -/
def userRepoFindById (st : UserStore) (id : Nat) : Option Usuario :=
  st.rows.find? (fun u => u.id == id)

/-- `UserRepository.create`: inserts nome, email, senha and
`role: data.role || 'user'`; the store assigns the id, the timestamps, and
the `ativo` column default `1` (migration `003_usuarios.sql`). -/
def userRepoCreate (st : UserStore) (data : RegisterUserInput) (hashedSenha : String) :
    Usuario × UserStore :=
  let u : Usuario :=
    { id := st.nextId, email := data.email, senha := hashedSenha, nome := data.nome,
      role := jsOr data.role "user", ativo := true, criadoEm := "", atualizadoEm := "" }
  (u, { rows := st.rows ++ [u], nextId := st.nextId + 1 })

/-- `UserRepository.findMany`: active users only, `skip = (page-1)*limit`,
`take = limit`, projected through the password-free `select`, plus the
active count. The `orderBy criadoEm desc` clause only permutes rows by a
store-assigned timestamp; the model keeps store order. -/
def userRepoFindMany (st : UserStore) (page limit : Nat) :
    List (List (String × JVal)) × Nat :=
  let active := st.rows.filter (fun u => u.ativo)
  (((active.drop ((page - 1) * limit)).take limit).map usuarioSelectPublic, active.length)

/-- Prisma `update` semantics for a user row: present patch fields
overwrite, absent fields are ignored. -/
def applyUsuarioPatch (u : Usuario) (d : UpdateUserInput) : Usuario :=
  { u with
    nome := d.nome.getD u.nome,
    email := d.email.getD u.email,
    senha := d.senha.getD u.senha,
    role := d.role.getD u.role,
    ativo := d.ativo.getD u.ativo }

/-- `UserRepository.update`: the updated row, or `none` when absent. -/
def userRepoUpdate (st : UserStore) (id : Nat) (d : UpdateUserInput) :
    Option Usuario × UserStore :=
  match userRepoFindById st id with
  | none => (none, st)
  | some u =>
    (some (applyUsuarioPatch u d),
     { st with rows := st.rows.map (fun r => if r.id == id then applyUsuarioPatch r d else r) })

/-- `UserRepository.emailExists`: `findFirst` on the email, excluding one id
when `excludeId` is JS-truthy (so an `excludeId` of `0` is ignored, as in
the source). -/
def userRepoEmailExists (st : UserStore) (email : String) (excludeId : Option Nat) : Bool :=
  match excludeId with
  | some n =>
    if n != 0 then st.rows.any (fun u => u.email == email && u.id != n)
    else st.rows.any (fun u => u.email == email)
  | none => st.rows.any (fun u => u.email == email)

/-- `UserService.register`, parameterised by the external bcrypt `hash`:
email-uniqueness check, hash, repository create, token issue, and the
password-free view. -/
def register (hash : String → String) (st : UserStore) (data : RegisterUserInput) :
    Except String (List (String × JVal) × SignedToken) × UserStore :=
  match userRepoFindByEmail st data.email with
  | some _ => (Except.error "Email já está em uso", st)
  | none =>
    let (user, st') := userRepoCreate st data (hash data.senha)
    let payload : JwtPayload := { userId := user.id, email := user.email, role := user.role }
    (Except.ok (removeSenhaField (usuarioToObj user), generateToken payload), st')

/-- `UserService.login`, parameterised by the external bcrypt `compare`:
the unknown-email, inactive-account and wrong-password paths all throw the
same generic message; success returns the password-free view plus a fresh
token. -/
def login (compare : String → String → Bool) (st : UserStore) (data : LoginUserInput) :
    Except String (List (String × JVal) × SignedToken) :=
  match userRepoFindByEmail st data.email with
  | none => Except.error "Credenciais inválidas"
  | some user =>
    if !user.ativo then Except.error "Credenciais inválidas"
    else if !(compare data.senha user.senha) then Except.error "Credenciais inválidas"
    else
      Except.ok (removeSenhaField (usuarioToObj user),
        generateToken { userId := user.id, email := user.email, role := user.role })

/-- `UserService.getUserById`: not-found for an absent or inactive user,
otherwise the password-free view. -/
def getUserById (st : UserStore) (id : Nat) : Except String (List (String × JVal)) :=
  match userRepoFindById st id with
  | none => Except.error "Usuário não encontrado"
  | some user =>
    if !user.ativo then Except.error "Usuário não encontrado"
    else Except.ok (removeSenhaField (usuarioToObj user))

/-- `UserService.listUsers`: repository findMany plus the same pagination
metadata block as the order listing. -/
def listUsers (st : UserStore) (page limit : Nat) :
    List (List (String × JVal)) × Pagination :=
  let (usuarios, total) := userRepoFindMany st page limit
  let totalPages := mathCeilDiv total limit
  (usuarios,
   { page := page, limit := limit, total := total, totalPages := totalPages,
     hasNext := decide (page < totalPages), hasPrev := decide (page > 1) })

/-- `UserService.updateUser`: existence/activity check via `getUserById`,
email-collision check when the patch carries an email, re-hash when it
carries a password, then the repository update and the password-free view. -/
def updateUser (hash : String → String) (st : UserStore) (id : Nat) (d : UpdateUserInput) :
    Except String (List (String × JVal)) × UserStore :=
  match getUserById st id with
  | Except.error e => (Except.error e, st)
  | Except.ok _ =>
    let emailConflict :=
      match d.email with
      | some e => userRepoEmailExists st e (some id)
      | none => false
    if emailConflict then (Except.error "Email já está em uso", st)
    else
      let updateData : UpdateUserInput :=
        match d.senha with
        | some s => { d with senha := some (hash s) }
        | none => d
      match userRepoUpdate st id updateData with
      | (none, st') => (Except.error "Erro ao atualizar usuário", st')
      | (some u, st') => (Except.ok (removeSenhaField (usuarioToObj u)), st')

/-- A browser `File` as the upload handler sees it: name, byte size and
declared MIME type. -/
structure WebFile where
  name : String
  size : Nat
  mimeType : String
  deriving DecidableEq

/-- `FileUploadOptions` of `fileService.ts`. -/
structure FileUploadOptions where
  maxSize : Nat
  allowedTypes : List String
  generateUniqueKey : Option Bool
  deriving DecidableEq

/-- Row of the `arquivos` table (migration `004_arquivos.sql`). -/
structure Arquivo where
  id : Nat
  nome : String
  tamanho : Nat
  tipo : String
  url : String
  deriving DecidableEq

/-- An object landed in the R2 bucket by `r2Bucket.put`. -/
structure R2ObjectRec where
  key : String
  contentType : String
  uploadedBy : String
  deriving DecidableEq

/-- The external state `FileService` touches: the R2 bucket contents and the
`arquivos` metadata table with its AUTOINCREMENT counter. -/
structure FileState where
  r2 : List R2ObjectRec
  arquivos : List Arquivo
  nextArquivoId : Nat
  deriving DecidableEq

/-- `FileService.validateFile`: size ceiling, MIME allow-list, and the
empty-file check, in source order; `none` means the file passed. The
human-readable size in the first message comes from the float-based
`formatFileSize`, supplied as `fmtSize`. -/
def validateFile (fmtSize : Nat → String) (file : WebFile) (options : FileUploadOptions) :
    Option String :=
  if file.size > options.maxSize then
    some ("Arquivo muito grande. Tamanho máximo: " ++ fmtSize options.maxSize)
  else if !(options.allowedTypes.contains file.mimeType) then
    some ("Tipo de arquivo não permitido. Tipos aceitos: " ++
      String.intercalate ", " options.allowedTypes)
  else if file.size == 0 then some "Arquivo está vazio"
  else none

/-- `FileService.uploadFile`: validation first; only on success the storage
key is derived (`generateFileKey` uses `Date.now`/`Math.random`, supplied as
`genKey`), the object is put into R2, and the metadata row is created. Any
thrown message is wrapped in the `Erro no upload:` envelope by the catch. -/
def uploadFile (fmtSize : Nat → String) (genKey : String → String → String)
    (baseUrl : String) (file : WebFile) (userId : String) (options : FileUploadOptions)
    (st : FileState) : Except String Arquivo × FileState :=
  match validateFile fmtSize file options with
  | some msg => (Except.error ("Erro no upload: " ++ msg), st)
  | none =>
    let fileKey :=
      if options.generateUniqueKey != some false then genKey file.name userId
      else "uploads/" ++ userId ++ "/" ++ file.name
    let arquivo : Arquivo :=
      { id := st.nextArquivoId, nome := fileKey, tamanho := file.size,
        tipo := file.mimeType, url := baseUrl ++ "/files/" ++ fileKey }
    (Except.ok arquivo,
     { r2 := st.r2 ++ [{ key := fileKey, contentType := file.mimeType, uploadedBy := userId }],
       arquivos := st.arquivos ++ [arquivo],
       nextArquivoId := st.nextArquivoId + 1 })

/-- Outcome of a middleware step: pass the identity on, or reject with a 401
or 403 `HTTPException`. -/
inductive MwOutcome where
  | proceed (user : JwtPayload)
  | unauthorized (msg : String)
  | forbidden (msg : String)
  deriving DecidableEq

/-- `roleMiddleware(requiredRoles)` applied to the identity the auth
middleware attached (or `none` when it never ran): 401 without an identity,
403 when the identity role is not in the required set. -/
def roleMiddleware (requiredRoles : List String) (user : Option JwtPayload) : MwOutcome :=
  match user with
  | none => MwOutcome.unauthorized "Usuário não autenticado"
  | some u =>
    if !(requiredRoles.contains u.role) then
      MwOutcome.forbidden "Acesso negado. Permissões insuficientes"
    else MwOutcome.proceed u

/-- Concrete two-order store used to evaluate the controller access check:
order 7 and order 2, both pending; the schema has no owning-user column, so
neither order carries any association with any caller. -/
def exPedidoStore : PedidoStore :=
  { rows :=
      [{ id := 7, cliente := "Bruno", tamanho := "G", complemento := none,
         preco := 20, status := "pendente" },
       { id := 2, cliente := "Carla", tamanho := "P", complemento := none,
         preco := 15, status := "pendente" }],
    nextId := 8 }

/-- Concrete store holding one delivered order (id 1). -/
def exEntregueStore : PedidoStore :=
  { rows :=
      [{ id := 1, cliente := "Ana", tamanho := "M", complemento := none,
         preco := 10, status := "entregue" }],
    nextId := 2 }

/-- Store of exactly 25 orders, all matching an unfiltered query. -/
def c8Store : PedidoStore :=
  { rows := (List.range 25).map (fun i =>
      { id := i + 1, cliente := "Cliente", tamanho := "M", complemento := none,
        preco := 10, status := "pendente" }),
    nextId := 26 }

/-- Concrete users: one active, one deactivated (senha fields hold bcrypt
hashes, abbreviated). -/
def exUsuario : Usuario :=
  { id := 1, email := "a@x.com", senha := "H1", nome := "Ana", role := "user",
    ativo := true, criadoEm := "", atualizadoEm := "" }

/-- Two-user store: `exUsuario` plus a deactivated account. -/
def exUserStore : UserStore :=
  { rows :=
      [exUsuario,
       { id := 2, email := "b@x.com", senha := "H2", nome := "Bia", role := "user",
         ativo := false, criadoEm := "", atualizadoEm := "" }],
    nextId := 3 }

/-- Bcrypt comparison stand-in used by concrete witnesses: the stored value
matches exactly one plaintext. -/
def exCompare (password hash : String) : Bool := hash == password

/-- C1 (code evaluation at the failing inputs): the access check of
`PedidoController.getById` compares the order id with the caller id and the
role with the uppercase literal `'ADMIN'`. A non-admin caller whose numeric
user id happens to equal the id of an order created by someone else is
served the order (no 403), and a caller holding the role `'admin'` exactly
as this system issues it (lowercase) is denied any order whose id differs
from their own id. -/
theorem pedidoController_getById_bug_eval :
    pedidoControllerGetById exPedidoStore "user" 7 7 =
      PedidoGetByIdResult.success
        { id := 7, cliente := "Bruno", tamanho := "G", complemento := none,
          preco := 20, status := "pendente" } ∧
    pedidoControllerGetById exPedidoStore "admin" 1 2 =
      PedidoGetByIdResult.denied "Acesso negado" :=
  ⟨rfl, rfl⟩

/-- C2 (counterexample): the order service does let a terminal order leave
its state — `updateStatus` on the delivered order 1 with target `'pendente'`
succeeds and rewrites the status. -/
theorem updateStatus_entregue_transition_cex :
    updateStatus exEntregueStore 1 "pendente" =
      (Except.ok
        { id := 1, cliente := "Ana", tamanho := "M", complemento := none,
          preco := 10, status := "pendente" },
       { rows :=
           [{ id := 1, cliente := "Ana", tamanho := "M", complemento := none,
              preco := 10, status := "pendente" }],
         nextId := 2 }) :=
  rfl

/-- C2 (amended): `updateStatus` enforces no transition relation at all; for
any existing order, regardless of its current status (the terminal
`'entregue'` and `'cancelado'` included), it succeeds for every one of the
five enumerated target statuses and writes that status, and it rejects
exactly the target values outside the five. -/
theorem updateStatus_ignores_terminal_status (st : PedidoStore) (id : Nat) (p : Pedido)
    (hp : pedidoRepoFindById st id = some p) :
    (∀ s, s ∈ validStatuses →
      updateStatus st id s =
        (Except.ok (applyPedidoPatch p
            { cliente := none, tamanho := none, complemento := none, preco := none,
              status := some s }),
         { st with rows := st.rows.map (fun r =>
             if r.id == id then
               applyPedidoPatch r
                 { cliente := none, tamanho := none, complemento := none, preco := none,
                   status := some s }
             else r) }) ∧
      (applyPedidoPatch p
        { cliente := none, tamanho := none, complemento := none, preco := none,
          status := some s }).status = s) ∧
    (∀ s, s ∉ validStatuses →
      updateStatus st id s = (Except.error "Status inválido", st)) := by
  constructor
  · intro s hs
    constructor
    · simp [updateStatus, updatePedido, getPedidoById, hp, precoNonPositive,
        pedidoRepoUpdate, hs]
    · simp [applyPedidoPatch]
  · intro s hs
    simp [updateStatus, hs]

/-- C2 (witness): the amended statement evaluated on the delivered order of
the concrete store, with target status `'pronto'`. -/
theorem updateStatus_ignores_terminal_status_witness :
    (updateStatus exEntregueStore 1 "pronto" =
      (Except.ok
        { id := 1, cliente := "Ana", tamanho := "M", complemento := none,
          preco := 10, status := "pronto" },
       { rows :=
           [{ id := 1, cliente := "Ana", tamanho := "M", complemento := none,
              preco := 10, status := "pronto" }],
         nextId := 2 }) ∧
      ({ id := 1, cliente := "Ana", tamanho := "M", complemento := none,
         preco := 10, status := "pronto" } : Pedido).status = "pronto") ∧
    updateStatus exEntregueStore 1 "despachado" = (Except.error "Status inválido", exEntregueStore) := by
  refine ⟨?_, ?_⟩
  · exact (updateStatus_ignores_terminal_status exEntregueStore 1 _ rfl).1 "pronto" (by decide)
  · exact (updateStatus_ignores_terminal_status exEntregueStore 1 _ rfl).2 "despachado" (by decide)

/-- C3: for an existing order, `deletePedido` fails exactly when the status
is `'entregue'` (leaving the store untouched), removes the row otherwise,
and reports not-found for an absent id. -/
theorem deletePedido_fails_iff_entregue (st : PedidoStore) (id : Nat) :
    (pedidoRepoFindById st id = none →
      deletePedido st id = (Except.error "Pedido não encontrado", st)) ∧
    (∀ p, pedidoRepoFindById st id = some p →
      (p.status = "entregue" →
        deletePedido st id = (Except.error "Não é possível deletar pedidos já entregues", st)) ∧
      (p.status ≠ "entregue" →
        deletePedido st id =
          (Except.ok (), { st with rows := st.rows.filter (fun r => !(r.id == id)) })) ∧
      ((deletePedido st id).1 = Except.ok () ↔ p.status ≠ "entregue")) := by
  constructor
  · intro h
    simp [deletePedido, getPedidoById, h]
  · intro p hp
    have hp' : st.rows.find? (fun r => r.id == id) = some p := hp
    have hmem : p ∈ st.rows := List.mem_of_find?_eq_some hp'
    have hpred := List.find?_some hp'
    have hany : st.rows.any (fun r => r.id == id) = true :=
      List.any_eq_true.2 ⟨p, hmem, hpred⟩
    by_cases hs : p.status = "entregue"
    · refine ⟨fun _ => ?_, fun h => absurd hs h, ?_⟩
      · simp [deletePedido, getPedidoById, hp, hs]
      · constructor
        · intro h
          simp [deletePedido, getPedidoById, hp, hs] at h
        · intro h
          exact absurd hs h
    · have hbs : (p.status == "entregue") = false := by
        simp [hs]
      refine ⟨fun h => absurd h hs, fun _ => ?_, ?_⟩
      · simp [deletePedido, getPedidoById, hp, hbs, pedidoRepoDelete, hany]
      · constructor
        · intro _
          exact hs
        · intro _
          simp [deletePedido, getPedidoById, hp, hbs, pedidoRepoDelete, hany]

/-- C3 (witness): the delivered order 1 cannot be deleted, the pending order
7 of the two-order store can, and the absent id 99 reports not-found. -/
theorem deletePedido_fails_iff_entregue_witness :
    deletePedido exEntregueStore 1 =
      (Except.error "Não é possível deletar pedidos já entregues", exEntregueStore) ∧
    deletePedido exPedidoStore 7 =
      (Except.ok (),
       { rows :=
           [{ id := 2, cliente := "Carla", tamanho := "P", complemento := none,
              preco := 15, status := "pendente" }],
         nextId := 8 }) ∧
    deletePedido exPedidoStore 99 = (Except.error "Pedido não encontrado", exPedidoStore) := by
  refine ⟨?_, ?_, ?_⟩
  · exact ((deletePedido_fails_iff_entregue exEntregueStore 1).2 _ rfl).1 rfl
  · exact ((deletePedido_fails_iff_entregue exPedidoStore 7).2
      { id := 7, cliente := "Bruno", tamanho := "G", complemento := none,
        preco := 20, status := "pendente" } rfl).2.1 (by decide)
  · exact (deletePedido_fails_iff_entregue exPedidoStore 99).1 rfl

/-- C4: `createPedido` rejects a non-positive price leaving the store
untouched, and for a positive price appends exactly one new row whose status
is the default `'pendente'`. -/
theorem createPedido_price_rule (st : PedidoStore) (data : CreatePedidoInput) :
    (data.preco ≤ 0 →
      createPedido st data = (Except.error "Preço deve ser maior que zero", st)) ∧
    (0 < data.preco →
      ∃ p, createPedido st data =
          (Except.ok p, { rows := st.rows ++ [p], nextId := st.nextId + 1 }) ∧
        p.status = "pendente") := by
  constructor
  · intro h
    simp [createPedido, h]
  · intro h
    refine ⟨⟨st.nextId, data.cliente, data.tamanho, data.complemento, data.preco,
      "pendente"⟩, ?_, rfl⟩
    simp [createPedido, pedidoRepoCreate, not_le.2 h]

/-- C4 (witness): a price of -1 is rejected without touching the empty
store; a price of 5 creates the pending order. -/
theorem createPedido_price_rule_witness :
    createPedido { rows := [], nextId := 1 }
        { cliente := "Ana", tamanho := "M", complemento := none, preco := -1 } =
      (Except.error "Preço deve ser maior que zero", { rows := [], nextId := 1 }) ∧
    (∃ p, createPedido { rows := [], nextId := 1 }
        { cliente := "Ana", tamanho := "M", complemento := none, preco := 5 } =
      (Except.ok p, { rows := [p], nextId := 2 }) ∧ p.status = "pendente") := by
  constructor
  · exact (createPedido_price_rule _ _).1 (by decide)
  · exact (createPedido_price_rule _ _).2 (by decide)

/-- C5: `login` returns the one generic message for the unknown-email,
inactive-account and failed-comparison paths — every error it can produce
is that message — and on the remaining path returns the password-free user
view together with a token freshly issued over (id, email, role). -/
theorem login_generic_invalid_credentials (compare : String → String → Bool)
    (st : UserStore) (data : LoginUserInput) :
    (userRepoFindByEmail st data.email = none →
      login compare st data = Except.error "Credenciais inválidas") ∧
    (∀ u, userRepoFindByEmail st data.email = some u → u.ativo = false →
      login compare st data = Except.error "Credenciais inválidas") ∧
    (∀ u, userRepoFindByEmail st data.email = some u → u.ativo = true →
      compare data.senha u.senha = false →
      login compare st data = Except.error "Credenciais inválidas") ∧
    (∀ u, userRepoFindByEmail st data.email = some u → u.ativo = true →
      compare data.senha u.senha = true →
      login compare st data =
        Except.ok (removeSenhaField (usuarioToObj u),
          generateToken { userId := u.id, email := u.email, role := u.role })) ∧
    (∀ e, login compare st data = Except.error e → e = "Credenciais inválidas") := by
  refine ⟨?_, ?_, ?_, ?_, ?_⟩
  · intro h
    simp [login, h]
  · intro u hu ha
    simp [login, hu, ha]
  · intro u hu ha hc
    simp [login, hu, ha, hc]
  · intro u hu ha hc
    simp [login, hu, ha, hc]
  · intro e he
    cases hf : userRepoFindByEmail st data.email with
    | none => simp [login, hf] at he; exact he.symm
    | some u =>
      cases ha : u.ativo with
      | false => simp [login, hf, ha] at he; exact he.symm
      | true =>
        cases hc : compare data.senha u.senha with
        | false => simp [login, hf, ha, hc] at he; exact he.symm
        | true => simp [login, hf, ha, hc] at he

/-- C5 (witness): on the concrete store, the unknown email, the deactivated
account and the wrong password all yield the one generic message, and the
correct credentials log in. -/
theorem login_generic_invalid_credentials_witness :
    login exCompare exUserStore { email := "c@x.com", senha := "H1" } =
      Except.error "Credenciais inválidas" ∧
    login exCompare exUserStore { email := "b@x.com", senha := "H2" } =
      Except.error "Credenciais inválidas" ∧
    login exCompare exUserStore { email := "a@x.com", senha := "wrong" } =
      Except.error "Credenciais inválidas" ∧
    login exCompare exUserStore { email := "a@x.com", senha := "H1" } =
      Except.ok (removeSenhaField (usuarioToObj exUsuario),
        generateToken { userId := 1, email := "a@x.com", role := "user" }) := by
  refine ⟨?_, ?_, ?_, ?_⟩
  · exact (login_generic_invalid_credentials exCompare exUserStore _).1 rfl
  · exact (login_generic_invalid_credentials exCompare exUserStore _).2.1 _ rfl rfl
  · exact (login_generic_invalid_credentials exCompare exUserStore _).2.2.1 _ rfl rfl rfl
  · exact (login_generic_invalid_credentials exCompare exUserStore _).2.2.2.1 _ rfl rfl rfl

/-- C6: on a fresh email, `register` appends exactly one new user row;
the row is active (the `ativo` column default) and carries
`data.role || 'user'`, so an input without a role is persisted with role
`'user'`. -/
theorem register_creates_active_defaulted_user (hash : String → String)
    (st : UserStore) (input : RegisterUserInput)
    (hfresh : userRepoFindByEmail st input.email = none) :
    ∃ u tok,
      register hash st input =
        (Except.ok (removeSenhaField (usuarioToObj u), tok),
         { rows := st.rows ++ [u], nextId := st.nextId + 1 }) ∧
      u.ativo = true ∧ u.role = jsOr input.role "user" ∧
      (input.role = none → u.role = "user") := by
  refine ⟨⟨st.nextId, input.email, hash input.senha, input.nome,
    jsOr input.role "user", true, "", ""⟩,
    generateToken { userId := st.nextId, email := input.email, role := jsOr input.role "user" },
    ?_, rfl, rfl, fun h => by simp [jsOr, h]⟩
  simp [register, hfresh, userRepoCreate]

/-- C6 (witness): registering a role-less input on the concrete store
persists an active user with role `'user'`. -/
theorem register_creates_active_defaulted_user_witness :
    ∃ u tok,
      register (fun s => s) exUserStore
          { nome := "Caio", email := "c@x.com", senha := "Secret1", role := none } =
        (Except.ok (removeSenhaField (usuarioToObj u), tok),
         { rows := exUserStore.rows ++ [u], nextId := 4 }) ∧
      u.ativo = true ∧ u.role = jsOr none "user" ∧
      ((none : Option String) = none → u.role = "user") :=
  register_creates_active_defaulted_user (fun s => s) exUserStore
    { nome := "Caio", email := "c@x.com", senha := "Secret1", role := none } rfl

/-- Key list of a `removeSenhaField` image never contains `senha`. -/
theorem removeSenhaField_keys (o : List (String × JVal)) :
    "senha" ∉ (removeSenhaField o).map Prod.fst := by
  intro h
  rcases List.mem_map.1 h with ⟨kv, hkv, hfst⟩
  have hne := (List.mem_filter.1 hkv).2
  rw [bne_iff_ne] at hne
  exact hne hfst

/-- The repository `select` projection never emits a `senha` key. -/
theorem usuarioSelectPublic_keys (u : Usuario) :
    "senha" ∉ (usuarioSelectPublic u).map Prod.fst := by
  simp [usuarioSelectPublic]

/-- C7: no success view of `register`, `login`, `getUserById`, `listUsers`
(any entry) or `updateUser` carries a `senha` key. -/
theorem user_service_views_omit_senha (hash : String → String)
    (compare : String → String → Bool) (st : UserStore) :
    (∀ input view tok st', register hash st input = (Except.ok (view, tok), st') →
      "senha" ∉ view.map Prod.fst) ∧
    (∀ data view tok, login compare st data = Except.ok (view, tok) →
      "senha" ∉ view.map Prod.fst) ∧
    (∀ id view, getUserById st id = Except.ok view →
      "senha" ∉ view.map Prod.fst) ∧
    (∀ page limit view, view ∈ (listUsers st page limit).1 →
      "senha" ∉ view.map Prod.fst) ∧
    (∀ id d view st', updateUser hash st id d = (Except.ok view, st') →
      "senha" ∉ view.map Prod.fst) := by
  refine ⟨?_, ?_, ?_, ?_, ?_⟩
  · intro input view tok st' h
    cases hf : userRepoFindByEmail st input.email with
    | some u => simp [register, hf] at h
    | none =>
      simp [register, hf, userRepoCreate] at h
      rw [← h.1.1]
      exact removeSenhaField_keys _
  · intro data view tok h
    cases hf : userRepoFindByEmail st data.email with
    | none => simp [login, hf] at h
    | some u =>
      cases ha : u.ativo with
      | false => simp [login, hf, ha] at h
      | true =>
        cases hc : compare data.senha u.senha with
        | false => simp [login, hf, ha, hc] at h
        | true =>
          simp [login, hf, ha, hc] at h
          rw [← h.1]
          exact removeSenhaField_keys _
  · intro id view h
    cases hf : userRepoFindById st id with
    | none => simp [getUserById, hf] at h
    | some u =>
      cases ha : u.ativo with
      | false => simp [getUserById, hf, ha] at h
      | true =>
        simp [getUserById, hf, ha] at h
        rw [← h]
        exact removeSenhaField_keys _
  · intro page limit view hv
    simp only [listUsers, userRepoFindMany] at hv
    rcases List.mem_map.1 hv with ⟨u, _, hvu⟩
    rw [← hvu]
    exact usuarioSelectPublic_keys u
  · intro id d view st' h
    unfold updateUser at h
    split at h
    · simp at h
    · split at h <;> split at h
      all_goals try dsimp only at h
      all_goals split at h
      all_goals try simp at h
      all_goals split at h
      all_goals try simp at h
      all_goals rw [← h.1]
      all_goals exact removeSenhaField_keys _

/-- C7 (witness): the password-free views produced by concrete successful
runs of the five operations on the two-user store. -/
theorem user_service_views_omit_senha_witness :
    "senha" ∉ (removeSenhaField (usuarioToObj
      { id := 3, email := "c@x.com", senha := "Secret1", nome := "Caio", role := "user",
        ativo := true, criadoEm := "", atualizadoEm := "" })).map Prod.fst ∧
    "senha" ∉ (removeSenhaField (usuarioToObj exUsuario)).map Prod.fst ∧
    "senha" ∉ (usuarioSelectPublic exUsuario).map Prod.fst := by
  refine ⟨?_, ?_, ?_⟩
  · exact (user_service_views_omit_senha (fun s => s) exCompare exUserStore).1
      { nome := "Caio", email := "c@x.com", senha := "Secret1", role := none }
      (removeSenhaField (usuarioToObj
        { id := 3, email := "c@x.com", senha := "Secret1", nome := "Caio", role := "user",
          ativo := true, criadoEm := "", atualizadoEm := "" }))
      (generateToken { userId := 3, email := "c@x.com", role := "user" })
      { rows := exUserStore.rows ++
          [{ id := 3, email := "c@x.com", senha := "Secret1", nome := "Caio", role := "user",
             ativo := true, criadoEm := "", atualizadoEm := "" }], nextId := 4 }
      rfl
  · exact (user_service_views_omit_senha (fun s => s) exCompare exUserStore).2.1
      { email := "a@x.com", senha := "H1" }
      (removeSenhaField (usuarioToObj exUsuario))
      (generateToken { userId := 1, email := "a@x.com", role := "user" })
      rfl
  · exact (user_service_views_omit_senha (fun s => s) exCompare exUserStore).2.2.2.1
      1 10 (usuarioSelectPublic exUsuario) (by decide)

/-- Natural ceiling division coincides with the exact rational ceiling of
the quotient, for a positive divisor. -/
theorem mathCeilDiv_eq_natCeil (a b : Nat) (hb : 0 < b) :
    mathCeilDiv a b = ⌈(a : ℚ) / (b : ℚ)⌉₊ := by
  have hbq : (0 : ℚ) < (b : ℚ) := by exact_mod_cast hb
  have h1 : ∀ c : Nat, mathCeilDiv a b ≤ c ↔ a ≤ b * c := by
    intro c
    rw [show mathCeilDiv a b = a ⌈/⌉ b from (Nat.ceilDiv_eq_add_pred_div a b).symm]
    exact ceilDiv_le_iff_le_mul hb
  have h2 : ∀ c : Nat, ⌈(a : ℚ) / (b : ℚ)⌉₊ ≤ c ↔ a ≤ b * c := by
    intro c
    rw [Nat.ceil_le, div_le_iff hbq, mul_comm]
    constructor
    · intro hx
      exact_mod_cast hx
    · intro hx
      exact_mod_cast hx
  apply le_antisymm
  · exact (h1 _).2 ((h2 _).1 le_rfl)
  · exact (h2 _).2 ((h1 _).1 le_rfl)

/-- C8: the pagination metadata of `listPedidos` satisfies
`totalPages = ⌈total / limit⌉` (exact rational ceiling),
`hasNext = (page < totalPages)` and `hasPrev = (page > 1)`, with `total` the
number of records matching the filters; on the 25-record store with limit
10, page 1 yields `totalPages = 3, hasNext, ¬hasPrev` and page 3 yields
`¬hasNext, hasPrev`. -/
theorem listPedidos_pagination_formulas (st : PedidoStore) (q : ListPedidosQuery)
    (hl : 0 < q.limit) :
    ((listPedidos st q).2.page = q.page ∧
     (listPedidos st q).2.limit = q.limit ∧
     (listPedidos st q).2.total = (st.rows.filter (matchesPedidoFilters q)).length ∧
     (listPedidos st q).2.totalPages =
       ⌈(((listPedidos st q).2.total : ℚ)) / ((q.limit : ℚ))⌉₊ ∧
     (listPedidos st q).2.hasNext = decide (q.page < (listPedidos st q).2.totalPages) ∧
     (listPedidos st q).2.hasPrev = decide (q.page > 1)) ∧
    (listPedidos c8Store { page := 1, limit := 10, status := none, cliente := none }).2 =
      { page := 1, limit := 10, total := 25, totalPages := 3,
        hasNext := true, hasPrev := false } ∧
    (listPedidos c8Store { page := 3, limit := 10, status := none, cliente := none }).2 =
      { page := 3, limit := 10, total := 25, totalPages := 3,
        hasNext := false, hasPrev := true } := by
  refine ⟨⟨rfl, rfl, rfl, ?_, rfl, rfl⟩, ?_, ?_⟩
  · exact mathCeilDiv_eq_natCeil _ _ hl
  · decide
  · decide

/-- C8 (witness): the general formulas evaluated at the 25-record store with
page 1, limit 10. -/
theorem listPedidos_pagination_formulas_witness :
    (0 : Nat) < 10 ∧
    (listPedidos c8Store { page := 1, limit := 10, status := none, cliente := none }).2.totalPages =
      ⌈(((listPedidos c8Store { page := 1, limit := 10, status := none, cliente := none }).2.total : ℚ)) /
        (((10 : Nat) : ℚ))⌉₊ :=
  ⟨by decide,
   (listPedidos_pagination_formulas c8Store
     { page := 1, limit := 10, status := none, cliente := none } (by decide)).1.2.2.2.1⟩

/-- C9: whenever the file is oversized, of a disallowed MIME type, or empty,
`uploadFile` fails and returns the file state unchanged — nothing reaches
the R2 bucket and no `arquivos` row is created. -/
theorem uploadFile_rejected_without_side_effects (fmtSize : Nat → String)
    (genKey : String → String → String) (baseUrl : String) (file : WebFile)
    (userId : String) (options : FileUploadOptions) (st : FileState)
    (h : options.maxSize < file.size ∨
      options.allowedTypes.contains file.mimeType = false ∨ file.size = 0) :
    ∃ msg, uploadFile fmtSize genKey baseUrl file userId options st =
      (Except.error msg, st) := by
  cases hv : validateFile fmtSize file options with
  | some m => exact ⟨"Erro no upload: " ++ m, by simp [uploadFile, hv]⟩
  | none =>
    exfalso
    unfold validateFile at hv
    split_ifs at hv with h1 h2 h3
    rcases h with h | h | h
    · exact h1 h
    · refine h2 ?_
      rw [h]
      rfl
    · exact h3 (by simp [h])

/-- C9 (witness): a 0-byte PNG is rejected with the empty bucket and table
untouched. -/
theorem uploadFile_rejected_without_side_effects_witness :
    ∃ msg, uploadFile (fun _ => "") (fun _ _ => "k") ""
        { name := "a.png", size := 0, mimeType := "image/png" } "u1"
        { maxSize := 1000, allowedTypes := ["image/png"], generateUniqueKey := none }
        { r2 := [], arquivos := [], nextArquivoId := 1 } =
      (Except.error msg, { r2 := [], arquivos := [], nextArquivoId := 1 }) :=
  uploadFile_rejected_without_side_effects (fun _ => "") (fun _ _ => "k") ""
    { name := "a.png", size := 0, mimeType := "image/png" } "u1"
    { maxSize := 1000, allowedTypes := ["image/png"], generateUniqueKey := none }
    { r2 := [], arquivos := [], nextArquivoId := 1 }
    (Or.inr (Or.inr rfl))

/-- C10: the admin gate `roleMiddleware(['ADMIN'])` rejects with the 403
message every payload whose role is `'user'` or `'admin'` (lowercase) — in
particular every token `register` issues for a schema-valid input, since
those carry exactly the lowercase roles. -/
theorem roleMiddleware_admin_gate_rejects_issued_roles :
    (∀ (hash : String → String) (st : UserStore) (input : RegisterUserInput)
        (view : List (String × JVal)) (tok : SignedToken) (st' : UserStore),
      (input.role = none ∨ input.role = some "user" ∨ input.role = some "admin") →
      register hash st input = (Except.ok (view, tok), st') →
      roleMiddleware ["ADMIN"] (some tok.payload) =
        MwOutcome.forbidden "Acesso negado. Permissões insuficientes") ∧
    (∀ u : JwtPayload, u.role = "user" ∨ u.role = "admin" →
      roleMiddleware ["ADMIN"] (some u) =
        MwOutcome.forbidden "Acesso negado. Permissões insuficientes") := by
  have base : ∀ u : JwtPayload, u.role = "user" ∨ u.role = "admin" →
      roleMiddleware ["ADMIN"] (some u) =
        MwOutcome.forbidden "Acesso negado. Permissões insuficientes" := by
    intro u hu
    rcases hu with h | h <;> simp [roleMiddleware, h]
  refine ⟨?_, base⟩
  intro hash st input view tok st' hrole hreg
  cases hf : userRepoFindByEmail st input.email with
  | some u => simp [register, hf] at hreg
  | none =>
    simp [register, hf, userRepoCreate, generateToken] at hreg
    have htok : tok.payload.role = jsOr input.role "user" := by
      rw [← hreg.1.2]
    apply base
    rw [htok]
    rcases hrole with h | h | h
    · exact Or.inl (by simp [jsOr, h])
    · exact Or.inl (by simp [jsOr, h])
    · exact Or.inr (by simp [jsOr, h])

/-- C10 (witness): the gate rejects a register-issued token for a role-less
input on the two-user store, and rejects a bare lowercase-admin payload. -/
theorem roleMiddleware_admin_gate_rejects_issued_roles_witness :
    roleMiddleware ["ADMIN"]
        (some (generateToken { userId := 3, email := "c@x.com", role := "user" }).payload) =
      MwOutcome.forbidden "Acesso negado. Permissões insuficientes" ∧
    roleMiddleware ["ADMIN"] (some { userId := 1, email := "a@x.com", role := "admin" }) =
      MwOutcome.forbidden "Acesso negado. Permissões insuficientes" := by
  constructor
  · exact roleMiddleware_admin_gate_rejects_issued_roles.1 (fun s => s) exUserStore
      { nome := "Caio", email := "c@x.com", senha := "Secret1", role := none }
      (removeSenhaField (usuarioToObj
        { id := 3, email := "c@x.com", senha := "Secret1", nome := "Caio", role := "user",
          ativo := true, criadoEm := "", atualizadoEm := "" }))
      (generateToken { userId := 3, email := "c@x.com", role := "user" })
      { rows := exUserStore.rows ++
          [{ id := 3, email := "c@x.com", senha := "Secret1", nome := "Caio", role := "user",
             ativo := true, criadoEm := "", atualizadoEm := "" }], nextId := 4 }
      (Or.inl rfl) rfl
  · exact roleMiddleware_admin_gate_rejects_issued_roles.2
      { userId := 1, email := "a@x.com", role := "admin" } (Or.inr rfl)
